import Mathlib

/-!
Verification of the pingpal-github notification pipeline.

The development shallowly embeds the plugin actions as pure Lean functions:

* analyzeGitHubNotification (cache-first revision, the current file): the
  handler checks the in-memory cache, then the database, classifies novel
  events, inserts into the cache with a trim, writes the processed record
  (swallowing write errors), and dispatches a Telegram alert for important
  verdicts.

* analyzeGitHubNotificationDbFirst (database-first revision, an earlier
  file of the same action): the handler queries the database first, falls
  back to the cache only when the query fails, writes the record before the
  cache insertion, and propagates a write failure to the caller.

* pollGitHubNotifications: fetches a batch and filters it to the relevant
  reasons before invoking the analyze action.

External effects (database queries and writes, the LLM call, the Telegram
send) are modelled by an environment record describing each outcome; the
handlers additionally emit a trace of operations so that ordering claims
can be stated.
-/

namespace PingPal

/-- Subject part of a GitHub notification, from githubService. -/
structure Subject where
  title : String
  url : Option String
  type : String
deriving DecidableEq

/-- Repository part of a GitHub notification, from githubService. -/
structure Repository where
  name : String
  full_name : String
  html_url : String
deriving DecidableEq

/-- A GitHub notification as fetched by githubService (the fields the
pipeline reads). -/
structure GitHubNotification where
  id : String
  subject : Subject
  reason : String
  repository : Repository
  updated_at : String
  url : String
deriving DecidableEq

/-- Classifier output: importance flag plus rationale. -/
structure Verdict where
  important : Bool
  reason : String
deriving DecidableEq

/-- Audit copy of the origin stored in a processed record. -/
structure SourceContext where
  repository : String
  notificationType : String
  subjectTitle : String
  subjectType : String
deriving DecidableEq

/-- The durable deduplication entry written to the
pingpal_github_processed table (the metadata fields of the memory). -/
structure ProcessedRecord where
  githubNotificationId : String
  githubUrl : String
  notifiedViaTelegram : Bool
  analysisResult : String
  sourceContext : SourceContext
deriving DecidableEq

/-- The record logProcessedNotification builds for a notification and a
verdict: notifiedViaTelegram is the verdict importance (set before the
send is attempted). -/
def buildProcessedRecord (n : GitHubNotification) (v : Verdict) :
    ProcessedRecord :=
  { githubNotificationId := n.id
    githubUrl := n.url
    notifiedViaTelegram := v.important
    analysisResult := v.reason
    sourceContext :=
      { repository := n.repository.full_name
        notificationType := n.reason
        subjectTitle := n.subject.title
        subjectType := n.subject.type } }

/-- Outcome of the runtime.useModel call inside performImportanceAnalysis:
a well-formed object, a string that parses to a well-formed object, a
malformed response, or a thrown error. -/
inductive LLMResponse where
  | objectResponse (important : Bool) (reason : String)
  | stringResponse (important : Bool) (reason : String)
  | malformed
  | callError
deriving DecidableEq

/-- performImportanceAnalysis: returns the parsed verdict on a well-formed
response and substitutes the default verdict on any failure (the catch
branch of the source). -/
def performImportanceAnalysis : LLMResponse → Verdict
  | .objectResponse i r => ⟨i, r⟩
  | .stringResponse i r => ⟨i, r⟩
  | .malformed => ⟨false, "LLM analysis failed."⟩
  | .callError => ⟨false, "LLM analysis failed."⟩

/-- Outcome of the sendTelegramNotification action for one invocation:
the service may be missing, the target user id unset, the transport send
may throw, or everything succeeds. -/
inductive TelegramEnv where
  | ok
  | serviceMissing
  | userIdMissing
  | sendError
deriving DecidableEq

/-- Whether the sendTelegramNotification handler reports success (the
message was handed to the transport). -/
def sendTelegramSuccess : TelegramEnv → Bool
  | .ok => true
  | _ => false

/-- Environment of one pipeline pass: whether the database query and
write succeed, the LLM outcome, and the Telegram outcome. -/
structure PipelineEnv where
  dbQueryOk : Bool
  dbWriteOk : Bool
  llm : LLMResponse
  telegram : TelegramEnv
deriving DecidableEq

/-- MAX_CACHE_SIZE from analyzeGitHubNotification. -/
def MAX_CACHE_SIZE : Nat := 1000

/-- Set.add on the in-memory cache: a JS Set keeps insertion order and
ignores a duplicate insertion. The list is oldest-first. -/
def cacheAdd (cache : List String) (id : String) : List String :=
  if id ∈ cache then cache else cache ++ [id]

/-- The cache trim of the handler: when the size exceeds MAX_CACHE_SIZE
the oldest (size - MAX_CACHE_SIZE + 100) entries are removed. -/
def trimCache (cache : List String) : List String :=
  if MAX_CACHE_SIZE < cache.length then
    cache.drop (cache.length - MAX_CACHE_SIZE + 100)
  else cache

/-- The database duplicate check: runtime.getMemories returns the most
recent `count` records (the list is newest-first) and the handler scans
them for the notification id. -/
def dbHasNotification (db : List ProcessedRecord) (count : Nat)
    (id : String) : Bool :=
  (db.take count).any (fun r => r.githubNotificationId == id)

/-- runtime.createMemory: prepend the new record (newest-first order). -/
def createMemory (db : List ProcessedRecord) (r : ProcessedRecord) :
    List ProcessedRecord :=
  r :: db

/-- Operations a pass performs, in order, for temporal claims. -/
inductive Op where
  | dbQuery
  | classify
  | cacheInsert (id : String)
  | writeAttempt (ok : Bool)
  | notifyAttempt (delivered : Bool)
deriving DecidableEq

/-- Number of delivered alerts recorded in a trace. -/
def deliveredCount (trace : List Op) : Nat :=
  (trace.filter (fun op =>
    match op with
    | .notifyAttempt true => true
    | _ => false)).length

/-- Number of notification attempts (delivered or not) in a trace. -/
def notifyAttemptCount (trace : List Op) : Nat :=
  (trace.filter (fun op =>
    match op with
    | .notifyAttempt _ => true
    | _ => false)).length

/-- Result of one pass of the analyze action: the ActionResult fields the
callers read plus the final cache, the final database and the trace. -/
structure PassResult where
  success : Bool
  skipped : Bool
  important : Bool
  reason : String
  cache : List String
  db : List ProcessedRecord
  trace : List Op
deriving DecidableEq

/-- The cache-first revision of analyzeGitHubNotification.handler.
Order of operations: in-memory cache check; database check bounded to the
last 100 records, a failure of which is swallowed; classification; cache
insertion and trim; record write, a failure of which is swallowed; and the
Telegram dispatch when the verdict is important. -/
def analyzeGitHubNotification (env : PipelineEnv) (cache : List String)
    (db : List ProcessedRecord) (n : GitHubNotification) : PassResult :=
  if n.id ∈ cache then
    { success := true, skipped := true, important := false
      reason := "duplicate", cache := cache, db := db, trace := [] }
  else if env.dbQueryOk && dbHasNotification db 100 n.id then
    { success := true, skipped := true, important := false
      reason := "duplicate", cache := cacheAdd cache n.id, db := db
      trace := [Op.dbQuery] }
  else
    let verdict := performImportanceAnalysis env.llm
    let cache1 := trimCache (cacheAdd cache n.id)
    let db1 :=
      if env.dbWriteOk then createMemory db (buildProcessedRecord n verdict)
      else db
    let delivered := verdict.important && sendTelegramSuccess env.telegram
    { success := true, skipped := false, important := verdict.important
      reason := verdict.reason, cache := cache1, db := db1
      trace := [Op.dbQuery, Op.classify, Op.cacheInsert n.id,
                Op.writeAttempt env.dbWriteOk] ++
        (if verdict.important then [Op.notifyAttempt delivered] else []) }

/-- The shared novel-event tail of the database-first revision: classify,
write the record first (a failure aborts the pass with a reported error
before the cache insertion and before any dispatch), then insert into the
cache, trim, and dispatch when important. -/
def dbFirstNovel (env : PipelineEnv) (cache : List String)
    (db : List ProcessedRecord) (n : GitHubNotification) : PassResult :=
  let verdict := performImportanceAnalysis env.llm
  if env.dbWriteOk then
    let db1 := createMemory db (buildProcessedRecord n verdict)
    let cache1 := trimCache (cacheAdd cache n.id)
    let delivered := verdict.important && sendTelegramSuccess env.telegram
    { success := true, skipped := false, important := verdict.important
      reason := verdict.reason, cache := cache1, db := db1
      trace := [Op.dbQuery, Op.classify, Op.writeAttempt true,
                Op.cacheInsert n.id] ++
        (if verdict.important then [Op.notifyAttempt delivered] else []) }
  else
    { success := false, skipped := false, important := false
      reason := "Database logging failed", cache := cache, db := db
      trace := [Op.dbQuery, Op.classify, Op.writeAttempt false] }

/-- The database-first revision of analyzeGitHubNotification.handler.
The database is the primary duplicate check, bounded to the last 200
records; the in-memory cache is consulted only when the query fails; the
record write happens before the cache insertion and its failure is
propagated to the caller. -/
def analyzeGitHubNotificationDbFirst (env : PipelineEnv)
    (cache : List String) (db : List ProcessedRecord)
    (n : GitHubNotification) : PassResult :=
  if env.dbQueryOk then
    if dbHasNotification db 200 n.id then
      { success := true, skipped := true, important := false
        reason := "duplicate", cache := cacheAdd cache n.id, db := db
        trace := [Op.dbQuery] }
    else dbFirstNovel env cache db n
  else
    if n.id ∈ cache then
      { success := true, skipped := true, important := false
        reason := "duplicate", cache := cache, db := db
        trace := [Op.dbQuery] }
    else dbFirstNovel env cache db n

/-- The reasons pollGitHubNotifications keeps (the literal array in the
handler). -/
def relevantReasons : List String :=
  ["mention", "review_requested", "assign", "author"]

/-- Environment of the poll action: the two environment variables it
reads and whether the analyze action is registered. -/
structure PollEnv where
  accessToken : Option String
  targetUsername : Option String
  analyzeActionFound : Bool
deriving DecidableEq

/-- Result of the poll action: the filtered batch and the notifications
actually handed to the analyze action. -/
structure PollResult where
  success : Bool
  relevant : List GitHubNotification
  analyzed : List GitHubNotification
deriving DecidableEq

/-- pollGitHubNotifications.handler: fails when either environment
variable is missing; otherwise filters the fetched batch to the relevant
reasons and invokes the analyze action on each survivor. -/
def pollGitHubNotifications (env : PollEnv)
    (fetched : List GitHubNotification) : PollResult :=
  match env.accessToken with
  | none => { success := false, relevant := [], analyzed := [] }
  | some _ =>
    match env.targetUsername with
    | none => { success := false, relevant := [], analyzed := [] }
    | some _ =>
      let rel := fetched.filter (fun n => n.reason ∈ relevantReasons)
      { success := true, relevant := rel
        analyzed := if env.analyzeActionFound then rel else [] }

/-- Concrete review-request notification used by witnesses. -/
def n1 : GitHubNotification :=
  { id := "n1"
    subject := { title := "Fix bug", url := none, type := "PullRequest" }
    reason := "review_requested"
    repository := { name := "repo", full_name := "org/repo", html_url := "h" }
    updated_at := "2024-01-01", url := "u1" }

/-- Concrete mention notification used by witnesses. -/
def nX : GitHubNotification :=
  { id := "x"
    subject := { title := "Question", url := none, type := "Issue" }
    reason := "mention"
    repository := { name := "repo", full_name := "org/repo", html_url := "h" }
    updated_at := "2024-01-02", url := "u2" }

/-- Concrete notification of an ineligible category. -/
def nTeam : GitHubNotification :=
  { id := "t1"
    subject := { title := "Team topic", url := none, type := "Issue" }
    reason := "team_mention"
    repository := { name := "repo", full_name := "org/repo", html_url := "h" }
    updated_at := "2024-01-03", url := "u3" }

/-- Environment where everything succeeds and the verdict is important. -/
def envH : PipelineEnv := ⟨true, true, .objectResponse true "r", .ok⟩

/-- Environment where the record write fails. -/
def envWriteFail : PipelineEnv := ⟨true, false, .objectResponse true "r", .ok⟩

/-- Environment where the LLM response is malformed. -/
def envLLMFail : PipelineEnv := ⟨true, true, .malformed, .ok⟩

/-- Environment where the Telegram send throws. -/
def envSendFail : PipelineEnv := ⟨true, true, .objectResponse true "r", .sendError⟩

/-- A cache already holding MAX_CACHE_SIZE distinct ids. -/
def cache1000 : List String := (List.range 1000).map Nat.repr

/-- A processed record for the id of nX. -/
def recX : ProcessedRecord := buildProcessedRecord nX ⟨true, "r"⟩

/-- One concrete poll configuration. -/
def pollCfgA : PollEnv := ⟨some "tokenA", some "alice", true⟩

/-- A second, entirely different poll configuration. -/
def pollCfgB : PollEnv := ⟨some "tokenB", some "bob", true⟩

/-! Helper lemmas shared by the claim theorems. -/

/-- An id that was not already cached survives the insertion and the trim:
the trim drops only the oldest entries and the fresh id sits at the back. -/
theorem mem_trimCache_cacheAdd (cache : List String) (id : String)
    (h : id ∉ cache) : id ∈ trimCache (cacheAdd cache id) := by
  unfold cacheAdd trimCache
  rw [if_neg h]
  by_cases hlen : MAX_CACHE_SIZE < (cache ++ [id]).length
  · have hk : (cache ++ [id]).length - MAX_CACHE_SIZE + 100 ≤ cache.length := by
      simp only [List.length_append, List.length_singleton, MAX_CACHE_SIZE] at hlen ⊢
      omega
    rw [if_pos hlen, List.drop_append_of_le_length hk]
    simp
  · rw [if_neg hlen]
    simp

/-- The length of the cache after the trim. -/
theorem trimCache_length (l : List String) :
    (trimCache l).length =
      if MAX_CACHE_SIZE < l.length then MAX_CACHE_SIZE - 100 else l.length := by
  unfold trimCache
  by_cases h : MAX_CACHE_SIZE < l.length
  · rw [if_pos h, if_pos h, List.length_drop]
    simp only [MAX_CACHE_SIZE] at h ⊢
    omega
  · rw [if_neg h, if_neg h]

/-- A database holding no record for an id reports no duplicate at any
scan bound. -/
theorem dbHasNotification_eq_false (db : List ProcessedRecord) (c : Nat)
    (id : String) (h : ∀ r ∈ db, r.githubNotificationId ≠ id) :
    dbHasNotification db c id = false := by
  unfold dbHasNotification
  rw [List.any_eq_false]
  intro r hr
  simp only [beq_iff_eq]
  exact h r (List.mem_of_mem_take hr)

/-- On a database of at most 100 records the 200-bounded scan and the
100-bounded scan agree. -/
theorem dbHasNotification_200_eq_100 (db : List ProcessedRecord)
    (id : String) (h : db.length ≤ 100) :
    dbHasNotification db 200 id = dbHasNotification db 100 id := by
  unfold dbHasNotification
  rw [List.take_of_length_le h, List.take_of_length_le (le_trans h (by norm_num))]

/-- Shape of the cache-first pass on a cache hit. -/
theorem analyze_cacheHit (env : PipelineEnv) (cache : List String)
    (db : List ProcessedRecord) (n : GitHubNotification) (hc : n.id ∈ cache) :
    analyzeGitHubNotification env cache db n =
      { success := true, skipped := true, important := false
        reason := "duplicate", cache := cache, db := db, trace := [] } := by
  unfold analyzeGitHubNotification
  rw [if_pos hc]

/-- Shape of the cache-first pass on a cache miss and a database hit. -/
theorem analyze_dbHit (env : PipelineEnv) (cache : List String)
    (db : List ProcessedRecord) (n : GitHubNotification) (hc : n.id ∉ cache)
    (hq : env.dbQueryOk = true) (hdb : dbHasNotification db 100 n.id = true) :
    analyzeGitHubNotification env cache db n =
      { success := true, skipped := true, important := false
        reason := "duplicate", cache := cacheAdd cache n.id, db := db
        trace := [Op.dbQuery] } := by
  unfold analyzeGitHubNotification
  rw [if_neg hc, hq, hdb]
  simp

/-- Shape of the cache-first pass on the novel path. -/
theorem analyze_novel (env : PipelineEnv) (cache : List String)
    (db : List ProcessedRecord) (n : GitHubNotification) (hc : n.id ∉ cache)
    (hcond : (env.dbQueryOk && dbHasNotification db 100 n.id) = false) :
    analyzeGitHubNotification env cache db n =
      { success := true, skipped := false
        important := (performImportanceAnalysis env.llm).important
        reason := (performImportanceAnalysis env.llm).reason
        cache := trimCache (cacheAdd cache n.id)
        db := if env.dbWriteOk then
                createMemory db
                  (buildProcessedRecord n (performImportanceAnalysis env.llm))
              else db
        trace := [Op.dbQuery, Op.classify, Op.cacheInsert n.id,
                  Op.writeAttempt env.dbWriteOk] ++
          (if (performImportanceAnalysis env.llm).important then
            [Op.notifyAttempt ((performImportanceAnalysis env.llm).important &&
              sendTelegramSuccess env.telegram)]
          else []) } := by
  unfold analyzeGitHubNotification
  rw [if_neg hc, hcond]
  simp

/-- Shape of the database-first pass on a database hit. -/
theorem dbFirst_dbHit (env : PipelineEnv) (cache : List String)
    (db : List ProcessedRecord) (n : GitHubNotification)
    (hq : env.dbQueryOk = true) (hdb : dbHasNotification db 200 n.id = true) :
    analyzeGitHubNotificationDbFirst env cache db n =
      { success := true, skipped := true, important := false
        reason := "duplicate", cache := cacheAdd cache n.id, db := db
        trace := [Op.dbQuery] } := by
  unfold analyzeGitHubNotificationDbFirst
  rw [hq, hdb]
  simp

/-- Shape of the database-first pass on a database miss. -/
theorem dbFirst_novel_of_dbMiss (env : PipelineEnv) (cache : List String)
    (db : List ProcessedRecord) (n : GitHubNotification)
    (hq : env.dbQueryOk = true) (hdb : dbHasNotification db 200 n.id = false) :
    analyzeGitHubNotificationDbFirst env cache db n =
      dbFirstNovel env cache db n := by
  unfold analyzeGitHubNotificationDbFirst
  rw [hq, hdb]
  simp

/-- Shape of the database-first pass when the query fails and the cache
fallback misses. -/
theorem dbFirst_novel_of_queryFail (env : PipelineEnv) (cache : List String)
    (db : List ProcessedRecord) (n : GitHubNotification)
    (hq : env.dbQueryOk = false) (hc : n.id ∉ cache) :
    analyzeGitHubNotificationDbFirst env cache db n =
      dbFirstNovel env cache db n := by
  unfold analyzeGitHubNotificationDbFirst
  rw [hq, if_neg hc]
  simp

/-! Claim theorems. -/

/-- C1: running the cache-first pass twice with the same notification id,
starting from a state that has not processed the id and with a healthy
database on the first run, leaves exactly one processed record for the id,
resolves the second run as a duplicate, performs no second classification,
record write or notification, and delivers at most one alert in total. -/
theorem pipeline_idempotency (env1 env2 : PipelineEnv) (cache : List String)
    (db : List ProcessedRecord) (n : GitHubNotification)
    (hc : n.id ∉ cache)
    (hdb : ∀ r ∈ db, r.githubNotificationId ≠ n.id)
    (hq : env1.dbQueryOk = true) (hw : env1.dbWriteOk = true) :
    let r1 := analyzeGitHubNotification env1 cache db n
    let r2 := analyzeGitHubNotification env2 r1.cache r1.db n
    (r2.db.filter (fun r => r.githubNotificationId == n.id)).length = 1 ∧
    r2.skipped = true ∧ r2.success = true ∧
    r2.db = r1.db ∧ r2.cache = r1.cache ∧
    Op.classify ∉ r2.trace ∧ (∀ b, Op.writeAttempt b ∉ r2.trace) ∧
    (∀ d, Op.notifyAttempt d ∉ r2.trace) ∧
    deliveredCount r1.trace + deliveredCount r2.trace ≤ 1 := by
  have hdb100 : dbHasNotification db 100 n.id = false :=
    dbHasNotification_eq_false db 100 n.id hdb
  have h1 := analyze_novel env1 cache db n hc (by rw [hdb100]; simp)
  rw [h1, hw]
  dsimp only
  have hmem : n.id ∈ trimCache (cacheAdd cache n.id) :=
    mem_trimCache_cacheAdd cache n.id hc
  rw [analyze_cacheHit env2 _ _ n hmem]
  dsimp only
  have hfilter : db.filter (fun r => r.githubNotificationId == n.id) = [] :=
    List.filter_eq_nil_iff.mpr (fun r hr => by simp [hdb r hr])
  refine ⟨?_, rfl, rfl, rfl, rfl, by simp, by simp, by simp, ?_⟩
  · simp [createMemory, buildProcessedRecord, hfilter]
  · have : deliveredCount ([Op.dbQuery, Op.classify, Op.cacheInsert n.id,
        Op.writeAttempt true] ++
        (if (performImportanceAnalysis env1.llm).important = true then
          [Op.notifyAttempt ((performImportanceAnalysis env1.llm).important &&
            sendTelegramSuccess env1.telegram)]
        else [])) ≤ 1 := by
      by_cases himp : (performImportanceAnalysis env1.llm).important = true
      · cases hts : sendTelegramSuccess env1.telegram <;>
          simp [deliveredCount, himp, hts]
      · simp [deliveredCount, himp]
    simpa [deliveredCount] using this

/-- Witness for pipeline_idempotency at a concrete input. -/
theorem pipeline_idempotency_witness :
    let r1 := analyzeGitHubNotification envH [] [] n1
    let r2 := analyzeGitHubNotification envH r1.cache r1.db n1
    (r2.db.filter (fun r => r.githubNotificationId == n1.id)).length = 1 ∧
    r2.skipped = true ∧ r2.success = true ∧
    r2.db = r1.db ∧ r2.cache = r1.cache ∧
    Op.classify ∉ r2.trace ∧ (∀ b, Op.writeAttempt b ∉ r2.trace) ∧
    (∀ d, Op.notifyAttempt d ∉ r2.trace) ∧
    deliveredCount r1.trace + deliveredCount r2.trace ≤ 1 :=
  pipeline_idempotency envH envH [] [] n1 (by decide) (by decide) rfl rfl

/-- C2: the deduplication decision of the cache-first pass. A cache hit is
a duplicate and the database is never queried and the state is untouched;
otherwise the database is queried: a hit is a duplicate and backfills the
cache with the id, a miss is novel and proceeds to classification, and a
failed query is also treated as novel. -/
theorem dedup_decision_algorithm (env : PipelineEnv) (cache : List String)
    (db : List ProcessedRecord) (n : GitHubNotification) :
    (n.id ∈ cache →
      (analyzeGitHubNotification env cache db n).skipped = true ∧
      Op.dbQuery ∉ (analyzeGitHubNotification env cache db n).trace ∧
      (analyzeGitHubNotification env cache db n).cache = cache ∧
      (analyzeGitHubNotification env cache db n).db = db) ∧
    (n.id ∉ cache → env.dbQueryOk = true →
      dbHasNotification db 100 n.id = true →
      (analyzeGitHubNotification env cache db n).skipped = true ∧
      (analyzeGitHubNotification env cache db n).cache = cache ++ [n.id] ∧
      Op.classify ∉ (analyzeGitHubNotification env cache db n).trace) ∧
    (n.id ∉ cache → env.dbQueryOk = true →
      dbHasNotification db 100 n.id = false →
      (analyzeGitHubNotification env cache db n).skipped = false ∧
      Op.classify ∈ (analyzeGitHubNotification env cache db n).trace) ∧
    (n.id ∉ cache → env.dbQueryOk = false →
      (analyzeGitHubNotification env cache db n).skipped = false ∧
      Op.classify ∈ (analyzeGitHubNotification env cache db n).trace) := by
  refine ⟨?_, ?_, ?_, ?_⟩
  · intro hc
    rw [analyze_cacheHit env cache db n hc]
    exact ⟨rfl, by simp, rfl, rfl⟩
  · intro hc hq hdb
    rw [analyze_dbHit env cache db n hc hq hdb]
    refine ⟨rfl, ?_, by simp⟩
    rw [cacheAdd, if_neg hc]
  · intro hc hq hdb
    rw [analyze_novel env cache db n hc (by rw [hq, hdb]; rfl)]
    exact ⟨rfl, by simp⟩
  · intro hc hq
    rw [analyze_novel env cache db n hc (by rw [hq]; rfl)]
    exact ⟨rfl, by simp⟩

/-- Witness for dedup_decision_algorithm at a concrete input. -/
theorem dedup_decision_algorithm_witness :
    (analyzeGitHubNotification envH ["n1"] [] n1).skipped = true ∧
    Op.dbQuery ∉ (analyzeGitHubNotification envH ["n1"] [] n1).trace ∧
    (analyzeGitHubNotification envH ["n1"] [] n1).cache = ["n1"] ∧
    (analyzeGitHubNotification envH ["n1"] [] n1).db = [] :=
  (dedup_decision_algorithm envH ["n1"] [] n1).1 (by decide)

/-- C3 counterexample: in the cache-first revision a failed record write is
swallowed, not surfaced: the pass attempts the write, the write fails, and
the pass still reports success. -/
theorem ledger_write_failure_swallowed :
    (analyzeGitHubNotification envWriteFail [] [] n1).success = true ∧
    (analyzeGitHubNotification envWriteFail [] [] n1).db = [] ∧
    Op.writeAttempt false ∈
      (analyzeGitHubNotification envWriteFail [] [] n1).trace := by decide

/-- C3 amended: in the database-first revision a failed record write is
surfaced to the caller: the pass reports failure, leaves the database and
the cache unchanged, and attempts no notification. -/
theorem ledger_write_failure_surfaced (env : PipelineEnv)
    (cache : List String) (db : List ProcessedRecord)
    (n : GitHubNotification)
    (hnovel : (env.dbQueryOk = true ∧ dbHasNotification db 200 n.id = false) ∨
      (env.dbQueryOk = false ∧ n.id ∉ cache))
    (hw : env.dbWriteOk = false) :
    let r := analyzeGitHubNotificationDbFirst env cache db n
    r.success = false ∧ r.skipped = false ∧ r.db = db ∧ r.cache = cache ∧
    Op.writeAttempt false ∈ r.trace ∧
    (∀ d, Op.notifyAttempt d ∉ r.trace) := by
  have hshape : analyzeGitHubNotificationDbFirst env cache db n =
      dbFirstNovel env cache db n := by
    rcases hnovel with ⟨hq, hdb⟩ | ⟨hq, hc⟩
    · exact dbFirst_novel_of_dbMiss env cache db n hq hdb
    · exact dbFirst_novel_of_queryFail env cache db n hq hc
  rw [hshape]
  unfold dbFirstNovel
  rw [hw]
  dsimp only
  exact ⟨rfl, rfl, rfl, rfl, by simp, by simp⟩

/-- Witness for ledger_write_failure_surfaced at a concrete input. -/
theorem ledger_write_failure_surfaced_witness :
    let r := analyzeGitHubNotificationDbFirst envWriteFail [] [] n1
    r.success = false ∧ r.skipped = false ∧ r.db = [] ∧ r.cache = [] ∧
    Op.writeAttempt false ∈ r.trace ∧
    (∀ d, Op.notifyAttempt d ∉ r.trace) :=
  ledger_write_failure_surfaced envWriteFail [] [] n1
    (Or.inl ⟨rfl, by decide⟩) rfl

/-- C4 counterexample: the default verdict the code substitutes on
classification failure is not the one the claim states: its reason string
is a different literal. -/
theorem classification_default_mismatch :
    performImportanceAnalysis LLMResponse.malformed ≠
      ⟨false, "classification failed"⟩ ∧
    performImportanceAnalysis LLMResponse.malformed =
      ⟨false, "LLM analysis failed."⟩ ∧
    performImportanceAnalysis LLMResponse.callError =
      ⟨false, "LLM analysis failed."⟩ := by decide

/-- C4 amended: on classification failure (malformed output or a thrown
model call) the pass substitutes the safe default verdict with
important false and reason LLM analysis failed., still attempts the record
write, writes a record with notifiedViaTelegram false when the write
succeeds, and never delivers an alert. -/
theorem classification_failure_contained (env : PipelineEnv)
    (cache : List String) (db : List ProcessedRecord)
    (n : GitHubNotification)
    (hfail : env.llm = LLMResponse.malformed ∨
      env.llm = LLMResponse.callError)
    (hc : n.id ∉ cache) (hdb : dbHasNotification db 100 n.id = false) :
    let r := analyzeGitHubNotification env cache db n
    performImportanceAnalysis env.llm = ⟨false, "LLM analysis failed."⟩ ∧
    r.success = true ∧ r.skipped = false ∧ r.important = false ∧
    Op.writeAttempt env.dbWriteOk ∈ r.trace ∧
    (env.dbWriteOk = true →
      r.db = buildProcessedRecord n ⟨false, "LLM analysis failed."⟩ :: db) ∧
    (buildProcessedRecord n
      ⟨false, "LLM analysis failed."⟩).notifiedViaTelegram = false ∧
    deliveredCount r.trace = 0 ∧ (∀ d, Op.notifyAttempt d ∉ r.trace) := by
  have hv : performImportanceAnalysis env.llm =
      ⟨false, "LLM analysis failed."⟩ := by
    rcases hfail with h | h <;> rw [h] <;> rfl
  have h1 := analyze_novel env cache db n hc (by rw [hdb]; simp)
  rw [h1, hv]
  dsimp only
  refine ⟨rfl, rfl, rfl, rfl, by simp, ?_, rfl, by simp [deliveredCount],
    by simp⟩
  intro hw
  rw [hw]
  rfl

/-- Witness for classification_failure_contained at a concrete input. -/
theorem classification_failure_contained_witness :
    let r := analyzeGitHubNotification envLLMFail [] [] n1
    performImportanceAnalysis envLLMFail.llm =
      ⟨false, "LLM analysis failed."⟩ ∧
    r.success = true ∧ r.skipped = false ∧ r.important = false ∧
    Op.writeAttempt envLLMFail.dbWriteOk ∈ r.trace ∧
    (envLLMFail.dbWriteOk = true →
      r.db = buildProcessedRecord n1 ⟨false, "LLM analysis failed."⟩ :: []) ∧
    (buildProcessedRecord n1
      ⟨false, "LLM analysis failed."⟩).notifiedViaTelegram = false ∧
    deliveredCount r.trace = 0 ∧ (∀ d, Op.notifyAttempt d ∉ r.trace) :=
  classification_failure_contained envLLMFail [] [] n1 (Or.inl rfl)
    (by decide) (by decide)

/-- C5: on the novel path with a successful write, the cache-first pass
creates the processed record exactly once by prepending it to the
database, leaving every existing record untouched; in the trace the single
write attempt comes after classification and before every notification
attempt. -/
theorem processed_record_lifecycle (env : PipelineEnv) (cache : List String)
    (db : List ProcessedRecord) (n : GitHubNotification)
    (hc : n.id ∉ cache) (hdb : dbHasNotification db 100 n.id = false)
    (hw : env.dbWriteOk = true) :
    let r := analyzeGitHubNotification env cache db n
    r.skipped = false ∧
    r.db = buildProcessedRecord n (performImportanceAnalysis env.llm) :: db ∧
    (∃ pre post, r.trace = pre ++ Op.writeAttempt true :: post ∧
      Op.classify ∈ pre ∧
      (∀ b, Op.writeAttempt b ∉ pre) ∧ (∀ b, Op.writeAttempt b ∉ post) ∧
      (∀ d, Op.notifyAttempt d ∉ pre)) := by
  have h1 := analyze_novel env cache db n hc (by rw [hdb]; simp)
  rw [h1, hw]
  dsimp only
  refine ⟨rfl, rfl, [Op.dbQuery, Op.classify, Op.cacheInsert n.id],
    (if (performImportanceAnalysis env.llm).important = true then
      [Op.notifyAttempt ((performImportanceAnalysis env.llm).important &&
        sendTelegramSuccess env.telegram)]
    else []), by simp, by simp, by simp, ?_, by simp⟩
  intro b
  by_cases himp : (performImportanceAnalysis env.llm).important = true <;>
    simp [himp]

/-- Witness for processed_record_lifecycle at a concrete input. -/
theorem processed_record_lifecycle_witness :
    let r := analyzeGitHubNotification envH [] [] n1
    r.skipped = false ∧
    r.db =
      buildProcessedRecord n1 (performImportanceAnalysis envH.llm) :: [] ∧
    (∃ pre post, r.trace = pre ++ Op.writeAttempt true :: post ∧
      Op.classify ∈ pre ∧
      (∀ b, Op.writeAttempt b ∉ pre) ∧ (∀ b, Op.writeAttempt b ∉ post) ∧
      (∀ d, Op.notifyAttempt d ∉ pre)) :=
  processed_record_lifecycle envH [] [] n1 (by decide) (by decide) rfl

/-- C6: when the verdict is important and the Telegram send fails, the
cache-first pass ends with the same database and cache as a pass whose
send succeeds, still reports success, attempts the delivery exactly once
with no retry, and keeps the written record in the database. -/
theorem delivery_failure_frame (env : PipelineEnv) (cache : List String)
    (db : List ProcessedRecord) (n : GitHubNotification)
    (hc : n.id ∉ cache) (hdb : dbHasNotification db 100 n.id = false)
    (himp : (performImportanceAnalysis env.llm).important = true)
    (hfail : sendTelegramSuccess env.telegram = false) :
    let r := analyzeGitHubNotification env cache db n
    let rOk := analyzeGitHubNotification
      { env with telegram := TelegramEnv.ok } cache db n
    r.db = rOk.db ∧ r.cache = rOk.cache ∧
    r.success = true ∧ r.skipped = false ∧
    notifyAttemptCount r.trace = 1 ∧ deliveredCount r.trace = 0 ∧
    (env.dbWriteOk = true →
      buildProcessedRecord n (performImportanceAnalysis env.llm) ∈ r.db) := by
  have h1 := analyze_novel env cache db n hc (by rw [hdb]; simp)
  have h2 := analyze_novel { env with telegram := TelegramEnv.ok } cache db n
    hc (by rw [hdb]; simp)
  rw [h1, h2]
  dsimp only
  refine ⟨rfl, rfl, rfl, rfl, ?_, ?_, ?_⟩
  · simp [notifyAttemptCount, himp]
  · simp [deliveredCount, himp, hfail]
  · intro hw
    rw [hw]
    simp [createMemory]

/-- Witness for delivery_failure_frame at a concrete input. -/
theorem delivery_failure_frame_witness :
    let r := analyzeGitHubNotification envSendFail [] [] n1
    let rOk := analyzeGitHubNotification
      { envSendFail with telegram := TelegramEnv.ok } [] [] n1
    r.db = rOk.db ∧ r.cache = rOk.cache ∧
    r.success = true ∧ r.skipped = false ∧
    notifyAttemptCount r.trace = 1 ∧ deliveredCount r.trace = 0 ∧
    (envSendFail.dbWriteOk = true →
      buildProcessedRecord n1 (performImportanceAnalysis envSendFail.llm)
        ∈ r.db) :=
  delivery_failure_frame envSendFail [] [] n1 (by decide) (by decide)
    rfl rfl

/-- C9: the cache-first pass inserts the id into the cache before the
record write is attempted, so after a pass whose write failed the cache
still holds the id and the database is unchanged; a re-submission of the
same id in the same process is resolved as a duplicate from the cache with
no second classification, write attempt or notification. -/
theorem cache_insert_precedes_write (env1 env2 : PipelineEnv)
    (cache : List String) (db : List ProcessedRecord)
    (n : GitHubNotification)
    (hc : n.id ∉ cache) (hdb : dbHasNotification db 100 n.id = false)
    (hw : env1.dbWriteOk = false) :
    let r1 := analyzeGitHubNotification env1 cache db n
    let r2 := analyzeGitHubNotification env2 r1.cache r1.db n
    n.id ∈ r1.cache ∧ r1.db = db ∧
    (∃ pre post, r1.trace = pre ++ Op.writeAttempt false :: post ∧
      Op.cacheInsert n.id ∈ pre) ∧
    r2.skipped = true ∧ r2.db = r1.db ∧ r2.cache = r1.cache ∧
    Op.classify ∉ r2.trace ∧ (∀ b, Op.writeAttempt b ∉ r2.trace) ∧
    (∀ d, Op.notifyAttempt d ∉ r2.trace) := by
  have h1 := analyze_novel env1 cache db n hc (by rw [hdb]; simp)
  rw [h1, hw]
  dsimp only
  have hmem : n.id ∈ trimCache (cacheAdd cache n.id) :=
    mem_trimCache_cacheAdd cache n.id hc
  rw [analyze_cacheHit env2 _ _ n hmem]
  dsimp only
  exact ⟨hmem, rfl,
    ⟨[Op.dbQuery, Op.classify, Op.cacheInsert n.id],
      (if (performImportanceAnalysis env1.llm).important = true then
        [Op.notifyAttempt ((performImportanceAnalysis env1.llm).important &&
          sendTelegramSuccess env1.telegram)]
      else []), by simp, by simp⟩,
    rfl, rfl, rfl, by simp, by simp, by simp⟩

/-- Witness for cache_insert_precedes_write at a concrete input. -/
theorem cache_insert_precedes_write_witness :
    let r1 := analyzeGitHubNotification envWriteFail [] [] n1
    let r2 := analyzeGitHubNotification envH r1.cache r1.db n1
    n1.id ∈ r1.cache ∧ r1.db = [] ∧
    (∃ pre post, r1.trace = pre ++ Op.writeAttempt false :: post ∧
      Op.cacheInsert n1.id ∈ pre) ∧
    r2.skipped = true ∧ r2.db = r1.db ∧ r2.cache = r1.cache ∧
    Op.classify ∉ r2.trace ∧ (∀ b, Op.writeAttempt b ∉ r2.trace) ∧
    (∀ d, Op.notifyAttempt d ∉ r2.trace) :=
  cache_insert_precedes_write envWriteFail envH [] [] n1 (by decide)
    (by decide) rfl

set_option maxRecDepth 10000 in
/-- C7 counterexample: a pass that resolves its id as a duplicate via the
database backfills the cache without any trim, so starting from a cache
already holding MAX_CACHE_SIZE entries the pass ends with the cache above
the bound. -/
theorem cache_bound_exceeded :
    (analyzeGitHubNotification envH cache1000 [recX] nX).skipped = true ∧
    MAX_CACHE_SIZE <
      (analyzeGitHubNotification envH cache1000 [recX] nX).cache.length := by
  have hmem : nX.id ∉ cache1000 := by decide
  have hdb : dbHasNotification [recX] 100 nX.id = true := by decide
  rw [analyze_dbHit envH cache1000 [recX] nX hmem rfl hdb]
  refine ⟨rfl, ?_⟩
  rw [cacheAdd, if_neg hmem]
  simp [cache1000, MAX_CACHE_SIZE]

/-- C7 amended: a pass that classifies always ends with the cache at or
below MAX_CACHE_SIZE because the novel-path insertion is followed by a
trim that, once the insertion exceeds the bound, drops the oldest entries
down to the low-water mark MAX_CACHE_SIZE - 100; a cache hit leaves the
cache unchanged; but a duplicate pass can grow the cache by one entry
without trimming, so the bound holds only for passes that classify. -/
theorem cache_trim_policy (env : PipelineEnv) (cache : List String)
    (db : List ProcessedRecord) (n : GitHubNotification) :
    ((analyzeGitHubNotification env cache db n).skipped = false →
      (analyzeGitHubNotification env cache db n).cache.length ≤
        MAX_CACHE_SIZE) ∧
    (n.id ∈ cache → (analyzeGitHubNotification env cache db n).cache =
      cache) ∧
    (analyzeGitHubNotification env cache db n).cache.length ≤
      cache.length + 1 ∧
    (MAX_CACHE_SIZE < (cacheAdd cache n.id).length →
      trimCache (cacheAdd cache n.id) =
        (cacheAdd cache n.id).drop
          ((cacheAdd cache n.id).length - MAX_CACHE_SIZE + 100) ∧
      (trimCache (cacheAdd cache n.id)).length = MAX_CACHE_SIZE - 100) := by
  have hlast : MAX_CACHE_SIZE < (cacheAdd cache n.id).length →
      trimCache (cacheAdd cache n.id) =
        (cacheAdd cache n.id).drop
          ((cacheAdd cache n.id).length - MAX_CACHE_SIZE + 100) ∧
      (trimCache (cacheAdd cache n.id)).length = MAX_CACHE_SIZE - 100 := by
    intro hgt
    constructor
    · unfold trimCache
      rw [if_pos hgt]
    · rw [trimCache_length, if_pos hgt]
  by_cases hc : n.id ∈ cache
  · rw [analyze_cacheHit env cache db n hc]
    refine ⟨?_, fun _ => rfl, by simp, hlast⟩
    intro h
    simp at h
  · by_cases hq : (env.dbQueryOk && dbHasNotification db 100 n.id) = true
    · obtain ⟨hq1, hq2⟩ := Bool.and_eq_true_iff.mp hq
      rw [analyze_dbHit env cache db n hc hq1 hq2]
      refine ⟨?_, fun h => absurd h hc, ?_, hlast⟩
      · intro h
        simp at h
      · unfold cacheAdd
        rw [if_neg hc]
        simp
    · have hcond : (env.dbQueryOk && dbHasNotification db 100 n.id) =
          false := by simpa using hq
      rw [analyze_novel env cache db n hc hcond]
      have hadd : (cacheAdd cache n.id).length = cache.length + 1 := by
        unfold cacheAdd
        rw [if_neg hc]
        simp
      refine ⟨?_, fun h => absurd h hc, ?_, hlast⟩
      · intro _
        rw [trimCache_length, hadd]
        by_cases hgt : MAX_CACHE_SIZE < cache.length + 1
        · rw [if_pos hgt]
          simp [MAX_CACHE_SIZE]
        · rw [if_neg hgt]
          omega
      · rw [trimCache_length, hadd]
        by_cases hgt : MAX_CACHE_SIZE < cache.length + 1
        · rw [if_pos hgt]
          simp only [MAX_CACHE_SIZE] at hgt ⊢
          omega
        · rw [if_neg hgt]

/-- Witness for cache_trim_policy at a concrete input, discharging the
cache-hit and the over-capacity hypotheses. -/
theorem cache_trim_policy_witness :
    (analyzeGitHubNotification envH ["n1"] [] n1).cache = ["n1"] ∧
    ((analyzeGitHubNotification envH [] [] n1).skipped = false →
      (analyzeGitHubNotification envH [] [] n1).cache.length ≤
        MAX_CACHE_SIZE) :=
  ⟨(cache_trim_policy envH ["n1"] [] n1).2.1 (by decide),
   (cache_trim_policy envH [] [] n1).1⟩

/-- C8 counterexample: the eligible category set is not configurable: two
configurations differing in every configurable field filter a batch
identically, a team_mention notification is excluded under both, and the
set the filter consults is the fixed literal list. -/
theorem category_filter_not_configurable :
    pollGitHubNotifications pollCfgA [nTeam, n1] =
      pollGitHubNotifications pollCfgB [nTeam, n1] ∧
    pollCfgA ≠ pollCfgB ∧
    (pollGitHubNotifications pollCfgA [nTeam, n1]).relevant = [n1] ∧
    relevantReasons = ["mention", "review_requested", "assign", "author"] := by
  decide

/-- C8 amended: a fetched notification whose reason lies outside the fixed
relevant set, the hardcoded list mention, review_requested, assign,
author, never appears in the filtered batch and is never handed to the
analyze action, under every configuration. -/
theorem category_filter_excludes (env : PollEnv)
    (fetched : List GitHubNotification) (n : GitHubNotification)
    (hn : n.reason ∉ relevantReasons) :
    n ∉ (pollGitHubNotifications env fetched).relevant ∧
    n ∉ (pollGitHubNotifications env fetched).analyzed := by
  unfold pollGitHubNotifications
  cases env.accessToken with
  | none => simp
  | some tok =>
    cases env.targetUsername with
    | none => simp
    | some user =>
      dsimp only
      have hrel : n ∉ fetched.filter
          (fun m => decide (m.reason ∈ relevantReasons)) := by
        intro hmem
        have hp := List.of_mem_filter hmem
        simp at hp
        exact hn hp
      refine ⟨hrel, ?_⟩
      by_cases hf : env.analyzeActionFound = true
      · rw [if_pos hf]
        exact hrel
      · rw [if_neg hf]
        simp

/-- Witness for category_filter_excludes at a concrete input. -/
theorem category_filter_excludes_witness :
    nTeam ∉ (pollGitHubNotifications pollCfgA [nTeam, n1]).relevant ∧
    nTeam ∉ (pollGitHubNotifications pollCfgA [nTeam, n1]).analyzed :=
  category_filter_excludes pollCfgA [nTeam, n1] nTeam (by decide)

/-- C10 counterexample: with identical healthy environments, a cache
holding an id the database does not record makes the two revisions
diverge on the same event: the cache-first pass skips it while the
database-first pass classifies it, writes a record and delivers an
alert. -/
theorem revisions_diverge :
    (analyzeGitHubNotification envH ["n1"] [] n1).skipped = true ∧
    (analyzeGitHubNotification envH ["n1"] [] n1).db = [] ∧
    deliveredCount (analyzeGitHubNotification envH ["n1"] [] n1).trace = 0 ∧
    (analyzeGitHubNotificationDbFirst envH ["n1"] [] n1).skipped = false ∧
    (analyzeGitHubNotificationDbFirst envH ["n1"] [] n1).db =
      [buildProcessedRecord n1 ⟨true, "r"⟩] ∧
    deliveredCount
      (analyzeGitHubNotificationDbFirst envH ["n1"] [] n1).trace = 1 := by
  decide

/-- C10 amended: when the database is healthy for both the query and the
write, holds at most 100 records, and records every cached id, the two
revisions compute the same duplicate decision and the same terminal
outcome: same result fields, same final cache, same final database and
the same number of delivered alerts. -/
theorem revisions_agree (env : PipelineEnv) (cache : List String)
    (db : List ProcessedRecord) (n : GitHubNotification)
    (hq : env.dbQueryOk = true) (hw : env.dbWriteOk = true)
    (hlen : db.length ≤ 100)
    (hsub : ∀ id ∈ cache, dbHasNotification db 100 id = true) :
    let r1 := analyzeGitHubNotification env cache db n
    let r2 := analyzeGitHubNotificationDbFirst env cache db n
    r1.skipped = r2.skipped ∧ r1.success = r2.success ∧
    r1.important = r2.important ∧ r1.reason = r2.reason ∧
    r1.cache = r2.cache ∧ r1.db = r2.db ∧
    deliveredCount r1.trace = deliveredCount r2.trace := by
  have h200 := dbHasNotification_200_eq_100 db n.id hlen
  by_cases hc : n.id ∈ cache
  · have hdb100 : dbHasNotification db 100 n.id = true := hsub n.id hc
    rw [analyze_cacheHit env cache db n hc,
      dbFirst_dbHit env cache db n hq (by rw [h200, hdb100])]
    dsimp only
    refine ⟨rfl, rfl, rfl, rfl, ?_, rfl, by simp [deliveredCount]⟩
    rw [cacheAdd, if_pos hc]
  · by_cases hdb100 : dbHasNotification db 100 n.id = true
    · rw [analyze_dbHit env cache db n hc hq hdb100,
        dbFirst_dbHit env cache db n hq (by rw [h200, hdb100])]
      exact ⟨rfl, rfl, rfl, rfl, rfl, rfl, rfl⟩
    · have hdbf : dbHasNotification db 100 n.id = false := by
        simpa using hdb100
      rw [analyze_novel env cache db n hc (by rw [hdbf]; simp),
        dbFirst_novel_of_dbMiss env cache db n hq (by rw [h200, hdbf])]
      unfold dbFirstNovel
      rw [hw]
      dsimp only
      refine ⟨rfl, rfl, rfl, rfl, rfl, rfl, ?_⟩
      by_cases himp : (performImportanceAnalysis env.llm).important = true <;>
        simp [deliveredCount, himp]

/-- Witness for revisions_agree at a concrete input. -/
theorem revisions_agree_witness :
    let r1 := analyzeGitHubNotification envH [] [] n1
    let r2 := analyzeGitHubNotificationDbFirst envH [] [] n1
    r1.skipped = r2.skipped ∧ r1.success = r2.success ∧
    r1.important = r2.important ∧ r1.reason = r2.reason ∧
    r1.cache = r2.cache ∧ r1.db = r2.db ∧
    deliveredCount r1.trace = deliveredCount r2.trace :=
  revisions_agree envH [] [] n1 rfl rfl (by decide) (by decide)

end PingPal
